import Mathlib

/-
Verification of the mb-io-automation test-orchestration layer.

The development shallowly embeds the parts of the repository that the
specification talks about:

  * the selector-fallback loops of the global-setup login flow
    (src/config/global-setup.ts, the "Resilient Locator Strategy");
  * the PlaywrightManager singleton (src/utils/playwrightManager.ts):
    browser launch, context creation, getters, trace saving, teardown;
  * the global-setup error-handling skeleton (catch / finally);
  * BasePage element-state probes and text extraction
    (src/pages/BasePage.ts) and HomePage footer extraction
    (src/pages/HomePage.ts);
  * the environment parsing (src/config/env.ts) and the AfterStep hook
    gating (src/hooks/hooks.ts).

Asynchronous browser calls are modelled by their outcomes: a visibility
probe either reports a boolean or throws; filesystem existence checks and
persist operations are boolean parameters; process id and the current
millisecond clock are explicit arguments.  Logging carries only the
messages relevant to the specification.
-/

namespace MBIO

/-! ## Definitions -/

/-! ### Resilient locator fallback loops
(global-setup.ts lines 58-71, 92-103, 111-122, 134-145)

Each loop iterates over an ordered selector list; per candidate it probes
visibility with a per-candidate timeout inside a try/catch, and on the
first visible candidate performs its action (click / fill) and breaks.
A throw during probing is swallowed and the loop advances.  The element
action itself is modelled as non-throwing. -/

/-- Outcome of probing one selector candidate: the element is visible
within the per-candidate timeout, it is not visible, or the probe throws
(for instance a malformed selector against the current DOM). -/
inductive ProbeResult where
  | visible
  | notVisible
  | err
deriving DecidableEq, Repr

/-- Embedding of the fallback loop from global-setup.ts: walk the ordered
candidate list, probing each candidate in turn; on the first candidate
whose probe reports visible, act on it and stop.  Returns the selected
candidate (if any) together with the list of candidates that were
evaluated, in evaluation order. -/
def resilientSearch {α : Type} (probe : α → ProbeResult) : List α → Option α × List α
  | [] => (none, [])
  | s :: rest =>
    if probe s = ProbeResult.visible then
      (some s, [s])
    else
      let r := resilientSearch probe rest
      (r.1, s :: r.2)

/-- Concrete candidate list from global-setup.ts lines 46-56 (login entry
points), kept for concrete evaluation of the search. -/
def loginSelectors : List String :=
  [ "a:has-text(\"Login\")",
    "a:has-text(\"Sign In\")",
    "a:has-text(\"Log In\")",
    "button:has-text(\"Login\")",
    "button:has-text(\"Sign In\")",
    "[class*=\"login\"]",
    "[class*=\"sign-in\"]",
    "[href*=\"login\"]",
    "[href*=\"signin\"]" ]

/-! ### Environment configuration (src/config/env.ts)

Raw environment variables are optional strings; env.ts turns them into
the ENV record.  The expression `process.env.X || 'd'` falls back to the
default also on the empty string (JavaScript falsiness); the boolean
toggles compare against the exact strings 'true' / 'false'. -/

/-- Raw environment variables read by env.ts; a missing variable is
`none`. -/
structure EnvVars where
  BROWSER : Option String := none
  STORAGE_STATE_PATH : Option String := none
  SCREENSHOT_ON_FAILURE : Option String := none
  SCREENSHOT_EACH_STEP : Option String := none
  VIDEO_ON_FAILURE : Option String := none
  TRACE_ON_FAILURE : Option String := none

/-- JavaScript `v || d` on an optional string: the default is used when
the variable is missing or empty. -/
def orDefault (v : Option String) (d : String) : String :=
  match v with
  | none => d
  | some s => if s.isEmpty then d else s

/-- Resolved configuration record, as built by env.ts.  Numeric settings
are kept at their env.ts defaults (they appear in no claim). -/
structure Env where
  BROWSER : String
  HEADLESS : Bool
  SLOW_MO : Nat
  DEFAULT_TIMEOUT : Nat
  NAVIGATION_TIMEOUT : Nat
  STORAGE_STATE_PATH : String
  SCREENSHOT_ON_FAILURE : Bool
  SCREENSHOT_EACH_STEP : Bool
  VIDEO_ON_FAILURE : Bool
  TRACE_ON_FAILURE : Bool

/-- Embedding of the ENV construction in env.ts lines 6-31:
`BROWSER: process.env.BROWSER || 'chromium'`,
`SCREENSHOT_ON_FAILURE: process.env.SCREENSHOT_ON_FAILURE === 'true'`,
`SCREENSHOT_EACH_STEP: process.env.SCREENSHOT_EACH_STEP !== 'false'`,
`VIDEO_ON_FAILURE / TRACE_ON_FAILURE: === 'true'`, and
`STORAGE_STATE_PATH: process.env.STORAGE_STATE_PATH || 'storage/auth.json'`. -/
def ENVof (v : EnvVars) : Env :=
  { BROWSER := orDefault v.BROWSER "chromium"
    HEADLESS := false
    SLOW_MO := 0
    DEFAULT_TIMEOUT := 30000
    NAVIGATION_TIMEOUT := 60000
    STORAGE_STATE_PATH := orDefault v.STORAGE_STATE_PATH "storage/auth.json"
    SCREENSHOT_ON_FAILURE := decide (v.SCREENSHOT_ON_FAILURE = some "true")
    SCREENSHOT_EACH_STEP := decide (v.SCREENSHOT_EACH_STEP ≠ some "false")
    VIDEO_ON_FAILURE := decide (v.VIDEO_ON_FAILURE = some "true")
    TRACE_ON_FAILURE := decide (v.TRACE_ON_FAILURE = some "true") }

/-! ### PlaywrightManager (src/utils/playwrightManager.ts)

The manager holds three nullable static handles: browser, context, page.
Handles are modelled with identities so that "same handle" is expressible;
fresh identities are passed in explicitly where the real code would
allocate a new browser object. -/

/-- Supported browser engines (playwrightManager.ts switch, lines 40-51). -/
inductive BrowserEngine where
  | chromium
  | firefox
  | webkit
deriving DecidableEq, Repr

/-- JavaScript String.prototype.toLowerCase, characterwise. -/
def jsToLower (s : String) : String :=
  String.mk (s.data.map Char.toLower)

/-- Engine selection from ENV.BROWSER.toLowerCase()
(playwrightManager.ts lines 37-51): firefox and webkit are recognized,
anything else (including 'chromium') launches chromium. -/
def browserTypeOf (s : String) : BrowserEngine :=
  if jsToLower s = "firefox" then BrowserEngine.firefox
  else if jsToLower s = "webkit" then BrowserEngine.webkit
  else BrowserEngine.chromium

/-- Handle to a launched browser process. -/
structure Browser where
  engine : BrowserEngine
  id : Nat
deriving DecidableEq, Repr

/-- Handle to a browser context, carrying the options used to create it
(playwrightManager.ts lines 59-100). -/
structure BrowserContext where
  storageState : Option String
  recordVideo : Bool
  tracingStarted : Bool
  defaultTimeout : Nat
  navigationTimeout : Nat
  id : Nat
deriving DecidableEq, Repr

/-- Handle to a page. -/
structure PageHandle where
  id : Nat
deriving DecidableEq, Repr

/-- Static state of the PlaywrightManager singleton: the three nullable
handles (playwrightManager.ts lines 20-22). -/
structure ManagerState where
  browser : Option Browser
  context : Option BrowserContext
  page : Option PageHandle
deriving DecidableEq, Repr

/-- Log entries emitted through the logger. -/
inductive LogEntry where
  | info (msg : String)
  | warn (msg : String)
deriving DecidableEq, Repr

/-- Embedding of PlaywrightManager.launchBrowser (lines 27-54): if a
browser handle is live it is returned unchanged; otherwise a browser of
the configured engine is launched (`fresh` is its identity) and stored. -/
def launchBrowser (env : Env) (fresh : Nat) (st : ManagerState) :
    Browser × ManagerState :=
  match st.browser with
  | some b => (b, st)
  | none =>
    let b : Browser := { engine := browserTypeOf env.BROWSER, id := fresh }
    (b, { st with browser := some b })

/-- Embedding of PlaywrightManager.createContext (lines 59-100): lazily
launch a browser if absent; include the storage state exactly when the
session-state file exists at the configured path (`fileExists`), logging
an info message in that case and a degraded-mode warning otherwise;
record video and start tracing according to configuration.  Returns the
new context, the updated state and the log entries. -/
def createContext (env : Env) (fileExists : Bool) (freshB freshC : Nat)
    (st : ManagerState) : BrowserContext × ManagerState × List LogEntry :=
  let st1 := match st.browser with
    | some _ => st
    | none => (launchBrowser env freshB st).2
  let storageLog :=
    if fileExists then
      (some env.STORAGE_STATE_PATH, LogEntry.info "Using stored authentication state")
    else
      (none, LogEntry.warn "No storage state found — proceeding without authentication")
  let ctx : BrowserContext :=
    { storageState := storageLog.1
      recordVideo := env.VIDEO_ON_FAILURE
      tracingStarted := env.TRACE_ON_FAILURE
      defaultTimeout := env.DEFAULT_TIMEOUT
      navigationTimeout := env.NAVIGATION_TIMEOUT
      id := freshC }
  (ctx, { st1 with context := some ctx }, [storageLog.2])

/-- Embedding of PlaywrightManager.createPage (lines 105-113): lazily
create a context if absent, then open one page and store it. -/
def createPage (env : Env) (fileExists : Bool) (freshB freshC freshP : Nat)
    (st : ManagerState) : PageHandle × ManagerState :=
  let st1 := match st.context with
    | some _ => st
    | none => (createContext env fileExists freshB freshC st).2.1
  let p : PageHandle := { id := freshP }
  (p, { st1 with page := some p })

/-- Embedding of PlaywrightManager.getPage (lines 118-123): error when the
page handle is null, the live handle otherwise. -/
def getPage (st : ManagerState) : Except String PageHandle :=
  match st.page with
  | none => Except.error "Page has not been initialized. Call createPage() first."
  | some p => Except.ok p

/-- Embedding of PlaywrightManager.getContext (lines 128-133). -/
def getContext (st : ManagerState) : Except String BrowserContext :=
  match st.context with
  | none => Except.error "Context has not been initialized. Call createContext() first."
  | some c => Except.ok c

/-- Embedding of PlaywrightManager.getBrowser (lines 138-143). -/
def getBrowser (st : ManagerState) : Except String Browser :=
  match st.browser with
  | none => Except.error "Browser has not been initialized. Call launchBrowser() first."
  | some b => Except.ok b

/-- Teardown effects issued against the underlying driver. -/
inductive CloseEv where
  | pageClosed
  | contextClosed
  | browserClosed
deriving DecidableEq, Repr

/-- Embedding of PlaywrightManager.closePage (lines 198-204): close and
null the page handle when it is live, otherwise do nothing. -/
def closePage (st : ManagerState) : ManagerState × List CloseEv :=
  match st.page with
  | some _ => ({ st with page := none }, [CloseEv.pageClosed])
  | none => (st, [])

/-- Embedding of PlaywrightManager.closeContext (lines 209-215). -/
def closeContext (st : ManagerState) : ManagerState × List CloseEv :=
  match st.context with
  | some _ => ({ st with context := none }, [CloseEv.contextClosed])
  | none => (st, [])

/-- Embedding of PlaywrightManager.closeBrowser (lines 220-229): close the
page, then the context, then the browser if live. -/
def closeBrowser (st : ManagerState) : ManagerState × List CloseEv :=
  let r1 := closePage st
  let r2 := closeContext r1.1
  match r2.1.browser with
  | some _ => ({ r2.1 with browser := none }, r1.2 ++ r2.2 ++ [CloseEv.browserClosed])
  | none => (r2.1, r1.2 ++ r2.2)

/-- Teardown operations a caller may issue, in any order and multiplicity. -/
inductive CloseOp where
  | page
  | ctx
  | browser
deriving DecidableEq, Repr

/-- Dispatch one teardown call. -/
def runClose (op : CloseOp) (st : ManagerState) : ManagerState × List CloseEv :=
  match op with
  | CloseOp.page => closePage st
  | CloseOp.ctx => closeContext st
  | CloseOp.browser => closeBrowser st

/-! ### Scenario-name sanitization and trace paths
(playwrightManager.ts lines 172-193, hooks.ts lines 102-105)

The sanitizer is the regex chain
`.replace(/[^a-zA-Z0-9_-]+/g, '_').replace(/_+/g, '_').replace(/^_|_$/g, '')`:
every maximal run of characters outside [a-zA-Z0-9_-] becomes one
underscore, runs of underscores collapse to one, and one leading and one
trailing underscore are stripped. -/

/-- Characters kept by the sanitizer: ASCII alphanumerics, underscore and
hyphen. -/
def isSafeChar (c : Char) : Bool :=
  c.isAlphanum || c = '_' || c = '-'

/-- First regex: each maximal run of unsafe characters becomes a single
underscore.  The flag records whether the previous character was unsafe
(i.e., the run is already represented). -/
def squashUnsafe (prevUnsafe : Bool) : List Char → List Char
  | [] => []
  | c :: rest =>
    if isSafeChar c then c :: squashUnsafe false rest
    else if prevUnsafe then squashUnsafe true rest
    else '_' :: squashUnsafe true rest

/-- Second regex: runs of underscores collapse to a single underscore. -/
def collapseUnderscores (prevUnd : Bool) : List Char → List Char
  | [] => []
  | c :: rest =>
    if c = '_' then
      if prevUnd then collapseUnderscores true rest
      else '_' :: collapseUnderscores true rest
    else c :: collapseUnderscores false rest

/-- Third regex, leading half: drop one leading underscore. -/
def stripLeadUnderscore (l : List Char) : List Char :=
  match l with
  | '_' :: rest => rest
  | _ => l

/-- Third regex: drop one leading and one trailing underscore. -/
def stripEdgeUnderscores (l : List Char) : List Char :=
  (stripLeadUnderscore (stripLeadUnderscore l).reverse).reverse

/-- Full sanitizer used for trace and screenshot names. -/
def sanitizeName (s : String) : String :=
  String.mk (stripEdgeUnderscores (collapseUnderscores false (squashUnsafe false s.data)))

/-- Decimal digit to its character. -/
def digitChar : Nat → Char
  | 0 => '0'
  | 1 => '1'
  | 2 => '2'
  | 3 => '3'
  | 4 => '4'
  | 5 => '5'
  | 6 => '6'
  | 7 => '7'
  | 8 => '8'
  | 9 => '9'
  | _ => '*'

/-- Decimal rendering of a natural number, as JavaScript template-literal
interpolation renders process.pid and Date.now(). -/
def natDecimal (n : Nat) : String :=
  if n = 0 then "0" else String.mk (((Nat.digits 10 n).map digitChar).reverse)

/-- Numeric value of a decimal digit character; left inverse of digitChar
on digits, used to recover a number from its rendering. -/
def charDigitVal (c : Char) : Nat :=
  c.toNat - 48

/-- Trace file path built by saveTrace (lines 177-189):
`test-results/traces/<sanitized or 'scenario'>_<pid>_<now>.zip`. -/
def tracePath (scenarioName : String) (pid now : Nat) : String :=
  let safe := sanitizeName scenarioName
  "test-results/traces/" ++ (if safe.isEmpty then "scenario" else safe)
    ++ "_" ++ natDecimal pid ++ "_" ++ natDecimal now ++ ".zip"

/-- Embedding of PlaywrightManager.saveTrace (lines 172-193): null when no
context is live or tracing is disabled; otherwise stop tracing and write
the trace archive at the derived path, returning that path. -/
def saveTrace (env : Env) (st : ManagerState) (scenarioName : String)
    (pid now : Nat) : Option String :=
  if st.context = none ∨ env.TRACE_ON_FAILURE = false then none
  else some (tracePath scenarioName pid now)

/-! ### Global setup error handling (global-setup.ts lines 41-167)

The try block runs the login flow and then persists the storage state
(line 152).  The catch block logs the error and best-effort persists again
(lines 158-163), swallowing a persist failure; it does not rethrow.  The
finally block always closes the browser.  `flowFails` says whether the
login flow (everything before line 152) throws; `persistFails` says
whether context.storageState() throws. -/

/-- Observable events of one globalSetup run. -/
inductive SetupEv where
  | storageSaved
  | storageSaveFailed
  | browserClosed
deriving DecidableEq, Repr

/-- Result of one globalSetup run: the events in order, and whether the
returned promise rejects (an exception escapes to the caller). -/
structure SetupRun where
  events : List SetupEv
  propagates : Bool
deriving DecidableEq, Repr

/-- Embedding of the globalSetup try/catch/finally skeleton
(global-setup.ts lines 41-167). -/
def globalSetup (flowFails persistFails : Bool) : SetupRun :=
  if flowFails then
    if persistFails then
      { events := [SetupEv.storageSaveFailed, SetupEv.browserClosed], propagates := false }
    else
      { events := [SetupEv.storageSaved, SetupEv.browserClosed], propagates := false }
  else
    if persistFails then
      { events := [SetupEv.storageSaveFailed, SetupEv.storageSaveFailed,
                   SetupEv.browserClosed], propagates := false }
    else
      { events := [SetupEv.storageSaved, SetupEv.browserClosed], propagates := false }

/-! ### BasePage element-state probes and text extraction
(src/pages/BasePage.ts lines 245-262 and 300-303) -/

/-- Outcome of an underlying driver call that returns a boolean or
throws. -/
inductive ProbeOutcome where
  | ok (b : Bool)
  | err
deriving DecidableEq, Repr

/-- Embedding of BasePage.isVisible: the probed boolean, or false when the
probe throws. -/
def pageIsVisible (o : ProbeOutcome) : Bool :=
  match o with
  | ProbeOutcome.ok b => b
  | ProbeOutcome.err => false

/-- Embedding of BasePage.isEnabled: the probed boolean, or false when the
probe throws. -/
def pageIsEnabled (o : ProbeOutcome) : Bool :=
  match o with
  | ProbeOutcome.ok b => b
  | ProbeOutcome.err => false

/-- JavaScript String.prototype.trim on the character list: drop leading
and trailing whitespace. -/
def jsTrim (s : String) : String :=
  String.mk (List.rdropWhile Char.isWhitespace (s.data.dropWhile Char.isWhitespace))

/-- Embedding of BasePage.getAllTexts (lines 300-303): take all text
contents, trim each, and keep only the non-empty ones. -/
def getAllTexts (texts : List String) : List String :=
  (texts.map jsTrim).filter (fun t => t.length > 0)

/-! ### HomePage footer extraction (src/pages/HomePage.ts lines 102-110) -/

/-- Model of the rendered home page as far as footer extraction sees it:
the text contents of the anchors under the footer element, and whether the
viewport has been scrolled to the bottom. -/
structure HomePageModel where
  footerAnchorTexts : List String
  scrolledToBottom : Bool
deriving DecidableEq, Repr

/-- Embedding of BasePage.scrollToBottom (BasePage.ts lines 380-382). -/
def scrollToBottom (pg : HomePageModel) : HomePageModel :=
  { pg with scrolledToBottom := true }

/-- Embedding of HomePage.getFooterLinkTexts (lines 107-110): scroll to
the bottom, then extract all footer anchor texts. -/
def getFooterLinkTexts (pg : HomePageModel) : List String × HomePageModel :=
  let pg1 := scrollToBottom pg
  (getAllTexts pg1.footerAnchorTexts, pg1)

/-! ### AfterStep hook (src/hooks/hooks.ts lines 88-113)

The hook returns immediately when SCREENSHOT_EACH_STEP is false; otherwise
it builds a sanitized name from scenario name, step index, step status and
step text, captures a screenshot under that name and attaches it; a
failure while capturing is caught and logged. -/

/-- Embedding of the AfterStep hook: the attached screenshot name, or none
when the toggle is off or the capture threw. -/
def afterStep (eachStep : Bool) (scenarioName : String) (stepIndex : Nat)
    (status stepText : String) (shotFails : Bool) : Option String :=
  if eachStep = false then none
  else
    let idx := stepIndex + 1
    let name := sanitizeName
      (scenarioName ++ "_" ++ natDecimal idx ++ "_" ++ status ++ "_" ++ stepText)
    if shotFails then none else some name

/-! ## Theorems -/

theorem resilientSearch_cons {α : Type} (probe : α → ProbeResult) (s : α) (l : List α) :
    resilientSearch probe (s :: l) =
      if probe s = ProbeResult.visible then (some s, [s])
      else ((resilientSearch probe l).1, s :: (resilientSearch probe l).2) := rfl

theorem resilientSearch_first_visible {α : Type} (probe : α → ProbeResult)
    (l1 l2 : List α) (x : α) (h1 : ∀ y ∈ l1, probe y ≠ ProbeResult.visible)
    (hx : probe x = ProbeResult.visible) :
    resilientSearch probe (l1 ++ x :: l2) = (some x, l1 ++ [x]) := by
  induction l1 with
  | nil => simp [resilientSearch, hx]
  | cons a t ih =>
    have ha : probe a ≠ ProbeResult.visible := h1 a (by simp)
    have ht : ∀ y ∈ t, probe y ≠ ProbeResult.visible := fun y hy => h1 y (by simp [hy])
    simp [resilientSearch_cons, ha, ih ht]

theorem resilientSearch_err_eq_notVisible {α : Type} (probe : α → ProbeResult)
    (l : List α) :
    resilientSearch
      (fun s => if probe s = ProbeResult.err then ProbeResult.notVisible else probe s) l
      = resilientSearch probe l := by
  induction l with
  | nil => rfl
  | cons a t ih =>
    by_cases ha : probe a = ProbeResult.visible
    · simp [resilientSearch_cons, ha]
    · by_cases he : probe a = ProbeResult.err <;>
        simp [resilientSearch_cons, ha, he, ih]

theorem resilientSearch_exhausted {α : Type} (probe : α → ProbeResult)
    (l : List α) (h : ∀ y ∈ l, probe y ≠ ProbeResult.visible) :
    resilientSearch probe l = (none, l) := by
  induction l with
  | nil => rfl
  | cons a t ih =>
    have ha : probe a ≠ ProbeResult.visible := h a (by simp)
    have ht : ∀ y ∈ t, probe y ≠ ProbeResult.visible := fun y hy => h y (by simp [hy])
    simp [resilientSearch_cons, ha, ih ht]

/-- C1: the resilient locator search tries candidates strictly in
declaration order and acts on the first candidate visible within its
per-candidate timeout, evaluating no candidate after it; a candidate whose
probe throws behaves exactly like a not-visible candidate; and only when
every candidate has failed does the search end with no element selected,
after evaluating the whole list. -/
theorem C1_resilient_locator_order {α : Type} (probe : α → ProbeResult)
    (l l1 l2 : List α) (x : α) :
    ((∀ y ∈ l1, probe y ≠ ProbeResult.visible) → probe x = ProbeResult.visible →
        resilientSearch probe (l1 ++ x :: l2) = (some x, l1 ++ [x]))
    ∧ resilientSearch
        (fun s => if probe s = ProbeResult.err then ProbeResult.notVisible else probe s) l
        = resilientSearch probe l
    ∧ ((∀ y ∈ l, probe y ≠ ProbeResult.visible) →
        resilientSearch probe l = (none, l)) :=
  ⟨fun h1 hx => resilientSearch_first_visible probe l1 l2 x h1 hx,
   resilientSearch_err_eq_notVisible probe l,
   fun h => resilientSearch_exhausted probe l h⟩

/-- C1 witness: on the concrete login-selector list of global-setup.ts,
with a probe that throws on the first candidate, reports not-visible on
the second and visible on the third, the search selects the third
candidate having evaluated exactly the first three. -/
theorem C1_resilient_locator_order_witness :
    resilientSearch
      (fun s => if s = "a:has-text(\"Log In\")" then ProbeResult.visible
        else if s = "a:has-text(\"Login\")" then ProbeResult.err
        else ProbeResult.notVisible)
      loginSelectors
      = (some "a:has-text(\"Log In\")",
         ["a:has-text(\"Login\")", "a:has-text(\"Sign In\")", "a:has-text(\"Log In\")"]) := by
  have h := (C1_resilient_locator_order
      (fun s => if s = "a:has-text(\"Log In\")" then ProbeResult.visible
        else if s = "a:has-text(\"Login\")" then ProbeResult.err
        else ProbeResult.notVisible)
      []
      ["a:has-text(\"Login\")", "a:has-text(\"Sign In\")"]
      [ "button:has-text(\"Login\")",
        "button:has-text(\"Sign In\")",
        "[class*=\"login\"]",
        "[class*=\"sign-in\"]",
        "[href*=\"login\"]",
        "[href*=\"signin\"]" ]
      "a:has-text(\"Log In\")").1
  have := h (by decide) (by decide)
  simpa [loginSelectors] using this

/-- C2: launchBrowser() is idempotent.  A second call while a browser
handle is live returns the existing handle with the state unchanged, so no
second browser is launched; this holds for every configured BROWSER
string, and the engine switch recognizes firefox and webkit and defaults
everything else (chromium included) to chromium. -/
theorem C2_launchBrowser_idempotent (env : Env) (fresh1 fresh2 : Nat)
    (st : ManagerState) :
    (launchBrowser env fresh2 (launchBrowser env fresh1 st).2
        = ((launchBrowser env fresh1 st).1, (launchBrowser env fresh1 st).2))
    ∧ (launchBrowser env fresh1 st).2.browser = some (launchBrowser env fresh1 st).1
    ∧ browserTypeOf "firefox" = BrowserEngine.firefox
    ∧ browserTypeOf "webkit" = BrowserEngine.webkit
    ∧ browserTypeOf "chromium" = BrowserEngine.chromium
    ∧ (∀ s : String, jsToLower s ≠ "firefox" → jsToLower s ≠ "webkit" →
        browserTypeOf s = BrowserEngine.chromium) := by
  refine ⟨?_, ?_, by decide, by decide, by decide, ?_⟩
  · cases hb : st.browser <;> simp [launchBrowser, hb]
  · cases hb : st.browser <;> simp [launchBrowser, hb]
  · intro s h1 h2
    simp [browserTypeOf, h1, h2]

/-- C2 witness: with an unrecognized BROWSER value the engine falls back
to chromium, and a concrete double launch from the empty manager state
returns the first handle unchanged. -/
theorem C2_launchBrowser_idempotent_witness :
    browserTypeOf "EDGE" = BrowserEngine.chromium
    ∧ launchBrowser (ENVof {}) 2 (launchBrowser (ENVof {}) 1 ⟨none, none, none⟩).2
        = ((launchBrowser (ENVof {}) 1 ⟨none, none, none⟩).1,
           (launchBrowser (ENVof {}) 1 ⟨none, none, none⟩).2) :=
  ⟨(C2_launchBrowser_idempotent (ENVof {}) 1 2 ⟨none, none, none⟩).2.2.2.2.2 "EDGE"
      (by decide) (by decide),
   (C2_launchBrowser_idempotent (ENVof {}) 1 2 ⟨none, none, none⟩).1⟩

/-- C3 counterexample: when the login flow throws and persisting succeeds,
globalSetup swallows the exception — its promise resolves normally
(propagates = false), so the claim that the failure is propagated to the
caller is false on the code; the best-effort persist and the browser
release do happen. -/
theorem C3_bootstrap_counterexample :
    ¬ ((globalSetup true false).propagates = true)
    ∧ SetupEv.storageSaved ∈ (globalSetup true false).events
    ∧ SetupEv.browserClosed ∈ (globalSetup true false).events := by
  decide

/-- C3 (amended): on every run of the bootstrap flow — whether or not the
login flow throws and whether or not persisting throws — a persist of the
context state is attempted (capturing at least anonymous cookies), a
failure of that persist is logged and not thrown, the browser is released
as the last action of every exit path, and no exception is propagated to
the caller: the flow failure itself is logged and swallowed rather than
rethrown. -/
theorem C3_bootstrap_best_effort (flowFails persistFails : Bool) :
    (SetupEv.storageSaved ∈ (globalSetup flowFails persistFails).events
      ∨ SetupEv.storageSaveFailed ∈ (globalSetup flowFails persistFails).events)
    ∧ (globalSetup flowFails persistFails).propagates = false
    ∧ (globalSetup flowFails persistFails).events.getLast? = some SetupEv.browserClosed := by
  cases flowFails <;> cases persistFails <;> decide

/-- C4: teardown is total and idempotent.  Running any teardown operation
a second time directly after it has run is a no-op: no further close
effect is issued and the state is unchanged.  Each close call nulls its
handle (closeBrowser nulls all three), and closeBrowser issued after
closePage and closeContext never re-closes the page or context. -/
theorem C4_teardown_idempotent (op : CloseOp) (st : ManagerState) :
    runClose op (runClose op st).1 = ((runClose op st).1, [])
    ∧ (closePage st).1.page = none
    ∧ (closeContext st).1.context = none
    ∧ (closeBrowser st).1.page = none
    ∧ (closeBrowser st).1.context = none
    ∧ (closeBrowser st).1.browser = none
    ∧ CloseEv.pageClosed ∉ (closeBrowser (closeContext (closePage st).1).1).2
    ∧ CloseEv.contextClosed ∉ (closeBrowser (closeContext (closePage st).1).1).2 := by
  obtain ⟨b, c, p⟩ := st
  cases op <;> cases b <;> cases c <;> cases p <;>
    simp [runClose, closePage, closeContext, closeBrowser]

/-- C5: every getter fails with its descriptive not-initialized error
exactly when the corresponding handle is null, and returns exactly the
live handle otherwise — never a silent no-op, never a stale handle. -/
theorem C5_getters_fail_fast (st : ManagerState) :
    (getPage st = Except.error "Page has not been initialized. Call createPage() first."
        ↔ st.page = none)
    ∧ (∀ p, getPage st = Except.ok p ↔ st.page = some p)
    ∧ (getContext st
          = Except.error "Context has not been initialized. Call createContext() first."
        ↔ st.context = none)
    ∧ (∀ c, getContext st = Except.ok c ↔ st.context = some c)
    ∧ (getBrowser st
          = Except.error "Browser has not been initialized. Call launchBrowser() first."
        ↔ st.browser = none)
    ∧ (∀ b, getBrowser st = Except.ok b ↔ st.browser = some b) := by
  obtain ⟨b, c, p⟩ := st
  cases b <;> cases c <;> cases p <;>
    simp [getPage, getContext, getBrowser]

/-- C6: when the session-state file is absent createContext succeeds,
produces an anonymous context (no storage state loaded) and logs the
degraded-mode warning; when the file is present the stored state is loaded
into the new context and no degraded warning is logged. -/
theorem C6_createContext_degraded (env : Env) (freshB freshC : Nat)
    (st : ManagerState) :
    LogEntry.warn "No storage state found — proceeding without authentication"
        ∈ (createContext env false freshB freshC st).2.2
    ∧ (createContext env false freshB freshC st).1.storageState = none
    ∧ (createContext env false freshB freshC st).2.1.context
        = some (createContext env false freshB freshC st).1
    ∧ (createContext env true freshB freshC st).1.storageState
        = some env.STORAGE_STATE_PATH
    ∧ LogEntry.warn "No storage state found — proceeding without authentication"
        ∉ (createContext env true freshB freshC st).2.2
    ∧ (createContext env true freshB freshC st).2.1.context
        = some (createContext env true freshB freshC st).1 := by
  cases hb : st.browser <;> simp [createContext, hb]

/-- C9: the BasePage element-state probes are total boolean functions of
the underlying probe outcome: a successful probe's boolean is returned
unchanged, and a probe that throws yields false — the exception is never
propagated. -/
theorem C9_probe_totality (o : ProbeOutcome) :
    (pageIsVisible o = true ↔ o = ProbeOutcome.ok true)
    ∧ (pageIsEnabled o = true ↔ o = ProbeOutcome.ok true)
    ∧ pageIsVisible ProbeOutcome.err = false
    ∧ pageIsEnabled ProbeOutcome.err = false := by
  cases o with
  | ok b => cases b <;> simp [pageIsVisible, pageIsEnabled]
  | err => simp [pageIsVisible, pageIsEnabled]

/-- C10: SCREENSHOT_EACH_STEP is true for every raw value except the exact
string 'false' (in particular when unset), the other three artifact
toggles are true only for the exact string 'true', and the AfterStep hook
attaches a screenshot exactly when SCREENSHOT_EACH_STEP is true (and the
capture itself succeeds). -/
theorem C10_screenshot_toggles (v : EnvVars)
    (scenarioName status stepText : String) (stepIndex : Nat) :
    ((ENVof v).SCREENSHOT_EACH_STEP = false ↔ v.SCREENSHOT_EACH_STEP = some "false")
    ∧ (ENVof { v with SCREENSHOT_EACH_STEP := none }).SCREENSHOT_EACH_STEP = true
    ∧ ((ENVof v).SCREENSHOT_ON_FAILURE = true ↔ v.SCREENSHOT_ON_FAILURE = some "true")
    ∧ ((ENVof v).VIDEO_ON_FAILURE = true ↔ v.VIDEO_ON_FAILURE = some "true")
    ∧ ((ENVof v).TRACE_ON_FAILURE = true ↔ v.TRACE_ON_FAILURE = some "true")
    ∧ (∀ sf, afterStep false scenarioName stepIndex status stepText sf = none)
    ∧ (afterStep true scenarioName stepIndex status stepText false).isSome = true := by
  refine ⟨?_, ?_, ?_, ?_, ?_, ?_, ?_⟩ <;>
    simp [ENVof, afterStep]

theorem digitChar_not_sep : ∀ a : Nat, a < 10 →
    digitChar a ≠ '_' ∧ digitChar a ≠ '.' := by
  decide

theorem charDigitVal_digitChar : ∀ a : Nat, a < 10 →
    charDigitVal (digitChar a) = a := by
  decide

theorem natDecimal_chars (n : Nat) :
    ∀ c ∈ (natDecimal n).data, c ≠ '_' ∧ c ≠ '.' := by
  intro c hc
  by_cases hn : n = 0
  · subst hn
    have : c = '0' := by simpa [natDecimal] using hc
    subst this
    decide
  · have hmem : c ∈ ((Nat.digits 10 n).map digitChar).reverse := by
      simpa [natDecimal, hn] using hc
    rw [List.mem_reverse] at hmem
    obtain ⟨d, hd, rfl⟩ := List.mem_map.mp hmem
    exact digitChar_not_sep d (Nat.digits_lt_base (by norm_num) hd)

theorem natDecimal_ofData (n : Nat) :
    Nat.ofDigits 10 (((natDecimal n).data.map charDigitVal).reverse) = n := by
  by_cases hn : n = 0
  · subst hn
    decide
  · have hdata : (natDecimal n).data = ((Nat.digits 10 n).map digitChar).reverse := by
      simp [natDecimal, hn]
    rw [hdata, List.map_reverse, List.reverse_reverse, List.map_map]
    have hcongr : (Nat.digits 10 n).map (charDigitVal ∘ digitChar)
        = (Nat.digits 10 n).map id :=
      List.map_congr_left fun d hd =>
        charDigitVal_digitChar d (Nat.digits_lt_base (by norm_num) hd)
    rw [hcongr, List.map_id, Nat.ofDigits_digits]

theorem natDecimal_inj {m n : Nat}
    (h : (natDecimal m).data = (natDecimal n).data) : m = n := by
  have hm := natDecimal_ofData m
  rw [h, natDecimal_ofData n] at hm
  exact hm.symm

theorem splitAtSep {c : Char} :
    ∀ (xs xs' ys ys' : List Char), c ∉ xs → c ∉ xs' →
      xs ++ c :: ys = xs' ++ c :: ys' → xs = xs' ∧ ys = ys' := by
  intro xs
  induction xs with
  | nil =>
    intro xs' ys ys' _ h2 heq
    cases xs' with
    | nil =>
      refine ⟨rfl, ?_⟩
      simpa using heq
    | cons b u =>
      rw [List.nil_append, List.cons_append] at heq
      injection heq with hcb _
      subst hcb
      exact absurd (List.mem_cons_self c u) h2
  | cons a t ih =>
    intro xs' ys ys' h1 h2 heq
    cases xs' with
    | nil =>
      rw [List.cons_append, List.nil_append] at heq
      injection heq with hac _
      subst hac
      exact absurd (List.mem_cons_self a t) h1
    | cons b u =>
      rw [List.cons_append, List.cons_append] at heq
      injection heq with hab htail
      have h1' : c ∉ t := fun hm => h1 (List.mem_cons_of_mem a hm)
      have h2' : c ∉ u := fun hm => h2 (List.mem_cons_of_mem b hm)
      obtain ⟨he, hy⟩ := ih u ys ys' h1' h2' htail
      exact ⟨by rw [hab, he], hy⟩

theorem tracePath_data (name : String) (p t : Nat) :
    (tracePath name p t).data
      = ("test-results/traces/"
          ++ (if (sanitizeName name).isEmpty then "scenario" else sanitizeName name)).data
        ++ '_' :: ((natDecimal p).data
          ++ '_' :: ((natDecimal t).data ++ ['.', 'z', 'i', 'p'])) := by
  have hu : ("_" : String).data = ['_'] := rfl
  have hz : (".zip" : String).data = ['.', 'z', 'i', 'p'] := rfl
  simp [tracePath, hu, hz, List.append_assoc]

theorem tracePath_collision_free (name : String) (p1 t1 p2 t2 : Nat)
    (h : p1 ≠ p2 ∨ t1 ≠ t2) :
    tracePath name p1 t1 ≠ tracePath name p2 t2 := by
  intro heq
  have hd : (tracePath name p1 t1).data = (tracePath name p2 t2).data := by rw [heq]
  rw [tracePath_data name p1 t1, tracePath_data name p2 t2] at hd
  have hd1 := List.append_cancel_left hd
  injection hd1 with _ hd2
  have noUnd : ∀ k : Nat, '_' ∉ (natDecimal k).data :=
    fun k hm => (natDecimal_chars k '_' hm).1 rfl
  have noDot : ∀ k : Nat, '.' ∉ (natDecimal k).data :=
    fun k hm => (natDecimal_chars k '.' hm).2 rfl
  obtain ⟨hA, hR⟩ := splitAtSep _ _ _ _ (noUnd p1) (noUnd p2) hd2
  obtain ⟨hB, -⟩ := splitAtSep _ _ _ _ (noDot t1) (noDot t2) hR
  rcases h with h | h
  · exact h (natDecimal_inj hA)
  · exact h (natDecimal_inj hB)

/-- C7 counterexample: with tracing enabled by configuration but no live
context (for instance before any scenario has created one), saveTrace
returns null — so "returns null if and only if tracing was disabled" is
false on the code, which also nulls out on a missing context. -/
theorem C7_saveTrace_counterexample :
    (ENVof { TRACE_ON_FAILURE := some "true" }).TRACE_ON_FAILURE = true
    ∧ saveTrace (ENVof { TRACE_ON_FAILURE := some "true" })
        { browser := none, context := none, page := none } "Checkout flow" 7 1000
      = none := by
  decide

/-- C7 (amended): saveTrace returns null exactly when no context is live
or tracing is disabled; otherwise it stops tracing and writes the trace to
the path built from the sanitized scenario name, the process id and the
millisecond timestamp, and for one scenario display name two runs that
differ in process id or timestamp never produce colliding trace paths. -/
theorem C7_saveTrace_null_iff_unique_paths (env : Env) (st : ManagerState)
    (name : String) (pid now : Nat) :
    (saveTrace env st name pid now = none
        ↔ (st.context = none ∨ env.TRACE_ON_FAILURE = false))
    ∧ (st.context ≠ none → env.TRACE_ON_FAILURE = true →
        saveTrace env st name pid now = some (tracePath name pid now))
    ∧ (∀ p2 t2 : Nat, pid ≠ p2 ∨ now ≠ t2 →
        tracePath name pid now ≠ tracePath name p2 t2) := by
  refine ⟨?_, ?_, fun p2 t2 hne => tracePath_collision_free name pid now p2 t2 hne⟩
  · by_cases hc : st.context = none ∨ env.TRACE_ON_FAILURE = false <;>
      simp [saveTrace, hc]
  · intro h1 h2
    simp [saveTrace, h1, h2]

/-- C7 witness: with tracing enabled and a live context, saveTrace returns
the derived path at the concrete inputs, and the paths of two runs of the
scenario "Checkout flow" with equal pid and different timestamps differ. -/
theorem C7_saveTrace_null_iff_unique_paths_witness :
    saveTrace (ENVof { TRACE_ON_FAILURE := some "true" })
        { browser := none
          context := some ⟨none, false, true, 30000, 60000, 0⟩
          page := none }
        "Checkout flow" 7 1000
      = some (tracePath "Checkout flow" 7 1000)
    ∧ tracePath "Checkout flow" 7 1000 ≠ tracePath "Checkout flow" 7 2000 :=
  ⟨(C7_saveTrace_null_iff_unique_paths (ENVof { TRACE_ON_FAILURE := some "true" })
      { browser := none
        context := some ⟨none, false, true, 30000, 60000, 0⟩
        page := none }
      "Checkout flow" 7 1000).2.1 (by decide) (by decide),
   (C7_saveTrace_null_iff_unique_paths (ENVof { TRACE_ON_FAILURE := some "true" })
      { browser := none
        context := some ⟨none, false, true, 30000, 60000, 0⟩
        page := none }
      "Checkout flow" 7 1000).2.2 7 2000 (by decide)⟩

theorem length_dropWhile_le' {α : Type} (p : α → Bool) (l : List α) :
    (l.dropWhile p).length ≤ l.length := by
  induction l with
  | nil => simp
  | cons a t ih =>
    by_cases hp : p a = true
    · rw [List.dropWhile_cons_of_pos hp]
      exact Nat.le_succ_of_le ih
    · rw [List.dropWhile_cons_of_neg hp]

theorem dropWhile_rdropWhile_fix {α : Type} (p : α → Bool) (l : List α)
    (h : List.dropWhile p l = l) :
    List.dropWhile p (List.rdropWhile p l) = List.rdropWhile p l := by
  cases l with
  | nil => simp [List.rdropWhile]
  | cons a t =>
    have ha : ¬ p a = true := by
      intro hpa
      rw [List.dropWhile_cons_of_pos hpa] at h
      have hle := length_dropWhile_le' p t
      rw [h] at hle
      simp at hle
    obtain ⟨s, hs⟩ := List.rdropWhile_prefix p (a :: t)
    cases hr : List.rdropWhile p (a :: t) with
    | nil => simp
    | cons b u =>
      rw [hr, List.cons_append] at hs
      injection hs with hba _
      rw [List.dropWhile_cons_of_neg (by rw [hba]; exact ha)]

theorem jsTrim_idem (s : String) : jsTrim (jsTrim s) = jsTrim s := by
  show String.mk (List.rdropWhile Char.isWhitespace (List.dropWhile Char.isWhitespace
        (List.rdropWhile Char.isWhitespace (List.dropWhile Char.isWhitespace s.data))))
      = String.mk (List.rdropWhile Char.isWhitespace (List.dropWhile Char.isWhitespace s.data))
  rw [dropWhile_rdropWhile_fix Char.isWhitespace (List.dropWhile Char.isWhitespace s.data)
        (List.dropWhile_idempotent Char.isWhitespace s.data),
      List.rdropWhile_idempotent]

theorem getAllTexts_all_keep (texts : List String)
    (h : ∀ t ∈ texts, 0 < (jsTrim t).length) :
    getAllTexts texts = texts.map jsTrim := by
  unfold getAllTexts
  rw [List.filter_eq_self]
  intro a ha
  obtain ⟨t, ht, rfl⟩ := List.mem_map.mp ha
  simpa using h t ht

/-- C8 counterexample: a footer with exactly 5 anchor elements one of
whose text contents is entirely whitespace yields only 4 extracted
strings, because getAllTexts filters out texts that trim to empty — so the
claim is false for pages with a whitespace-only anchor. -/
theorem C8_footer_counterexample :
    (["Home", "About", "Careers", "Legal", "   "] : List String).length = 5
    ∧ ¬ ((getFooterLinkTexts ⟨["Home", "About", "Careers", "Legal", "   "], false⟩).1.length = 5)
    ∧ (getFooterLinkTexts ⟨["Home", "About", "Careers", "Legal", "   "], false⟩).1.length = 4 := by
  decide

/-- C8 (amended): on a page whose footer contains exactly 5 anchor
elements, each with text that does not trim to the empty string,
scroll-to-bottom followed by footer-link extraction returns exactly 5
strings, each non-empty and already trimmed of surrounding whitespace
(a fixed point of trimming); anchors whose text is entirely whitespace are
filtered out, so one such anchor lowers the count. -/
theorem C8_footer_link_extraction (pg : HomePageModel)
    (h5 : pg.footerAnchorTexts.length = 5)
    (hne : ∀ t ∈ pg.footerAnchorTexts, 0 < (jsTrim t).length) :
    (getFooterLinkTexts pg).1.length = 5
    ∧ (∀ s ∈ (getFooterLinkTexts pg).1, 0 < s.length ∧ jsTrim s = s)
    ∧ (getFooterLinkTexts pg).2.scrolledToBottom = true := by
  refine ⟨?_, ?_, rfl⟩
  · show (getAllTexts pg.footerAnchorTexts).length = 5
    rw [getAllTexts_all_keep pg.footerAnchorTexts hne, List.length_map, h5]
  · intro s hs
    have hs' : s ∈ getAllTexts pg.footerAnchorTexts := hs
    rw [getAllTexts_all_keep pg.footerAnchorTexts hne] at hs'
    obtain ⟨t, ht, rfl⟩ := List.mem_map.mp hs'
    exact ⟨hne t ht, jsTrim_idem t⟩

/-- C8 witness: a concrete page with 5 footer anchors whose texts carry
stray surrounding whitespace but are not whitespace-only yields exactly 5
extracted strings. -/
theorem C8_footer_link_extraction_witness :
    (⟨[" Home ", "About\n", "Careers", "FAQ", "Legal"], false⟩
        : HomePageModel).footerAnchorTexts.length = 5
    ∧ (getFooterLinkTexts ⟨[" Home ", "About\n", "Careers", "FAQ", "Legal"], false⟩).1.length = 5 :=
  ⟨by decide,
   (C8_footer_link_extraction ⟨[" Home ", "About\n", "Careers", "FAQ", "Legal"], false⟩
      (by decide) (by decide)).1⟩

end MBIO
